import Mathlib

/-!
Verification of the `voicebox-server` launcher
(`src/tauri/src-tauri/src/bin/voicebox-server.rs`).

The launcher is a single `main` function with external effects.  We embed it
shallowly: an `Env` records every externally determined outcome (the
executable location, which filesystem paths exist, the result of the python
dependency probe, the stdout of the PowerShell consent dialog, the results
of file writes, whether the child spawn succeeds, and the child's wait
status).  `run` replays `main` over an `Env`, producing the ordered list of
observable `Event`s (log appends, process-spawn attempts, file writes and
removals, relayed child output) together with the launcher's final
`Outcome` (a process exit code, or an abort corresponding to a Rust panic).

Paths are modelled as lists of components; timestamps prepended to log
lines, and OS error texts interpolated into log messages, are elided as
they never influence control flow.  String helpers (`rustLines`,
`rustTrim`, `listStarts`) re-implement the semantics of Rust's
`str::lines`, `str::trim` and `str::starts_with` over character lists so
that every definition evaluates by kernel reduction.
-/

/-- An observable action of the launcher, in program order.
`removeLogFile b` is the attempted deletion of the previous log (source
line 21: `let _ = std::fs::remove_file(..)`, the `Result` discarded); the
flag records whether the deletion actually took effect.  `logLine` is one
successful append to the log sink; `spawnProc` is an attempt to start an
external process (program, argument list, optional working directory);
`writeFile` / `removeFile` are filesystem write/delete attempts;
`echoOut` / `echoErr` are child output lines relayed to the launcher's own
stdout / stderr. -/
inductive Event where
  | removeLogFile : Bool → Event
  | logLine : String → Event
  | spawnProc : String → List String → Option (List String) → Event
  | writeFile : List String → String → Event
  | removeFile : List String → Event
  | echoOut : String → Event
  | echoErr : String → Event
deriving DecidableEq

/-- How the launcher process terminates: a normal `std::process::exit`
with a code, or an abort (a Rust panic, e.g. from `.expect`). -/
inductive Outcome where
  | exit : Int → Outcome
  | aborted : String → Outcome
deriving DecidableEq

/-- Everything the environment decides about one launcher run.
`currentExe`: result of `env::current_exe()` (`none` = error).
`pathExists`: which paths exist on the filesystem.
`argv`: the launcher's own argument vector (program name first).
`probe`: result of running the python check script (`none` = the probe
process could not be started; `some b` = it ran and `b` is
`status.success()`).
`dialogStdout`: result of the PowerShell consent dialog (`none` = the
dialog process could not be started; `some s` = its captured stdout).
`reqRead`: result of `fs::read_to_string` on `requirements.txt`.
`writeSafeOk` / `writeBatOk`: whether the writes of the filtered manifest
and of the installer batch file succeed.
`spawnOk`: whether spawning the child python process succeeds.
`waitResult`: `none` = `child.wait()` returned an error; `some c` =
it returned a status whose `.code()` is `c` (`c = none` means killed by a
signal, no retrievable code).
`childOut` / `childErr`: the lines the child writes to its two streams.
`logOk`: whether the log sink can be opened and appended to.
`removeLogOk`: whether the initial `fs::remove_file` on the previous log
succeeds (the source discards its `Result`, so a failure leaves the old
content in place). -/
structure Env where
  currentExe : Option (List String)
  pathExists : List String → Bool
  argv : List String
  probe : Option Bool
  dialogStdout : Option String
  reqRead : Option String
  writeSafeOk : Bool
  writeBatOk : Bool
  spawnOk : Bool
  waitResult : Option (Option Int)
  childOut : List String
  childErr : List String
  logOk : Bool
  removeLogOk : Bool

/-- The result of replaying one launcher run. -/
structure RunResult where
  events : List Event
  outcome : Outcome
deriving DecidableEq

/-- Render a component path for log messages. -/
def pathStr (ps : List String) : String := String.intercalate ("/") ps

/-- `Path::parent`: `none` on an empty path, else drop the last component. -/
def parentPath : List String → Option (List String)
  | [] => none
  | ps => some ps.dropLast

/-- One successful log append produces one `logLine` event; an unwritable
sink swallows the message (source lines 14-18 ignore all I/O errors). -/
def logEv (env : Env) (s : String) : List Event :=
  if env.logOk then [Event.logLine s] else []

/-- Several consecutive log appends. -/
def logAll (env : Env) (ms : List String) : List Event :=
  if env.logOk then ms.map Event.logLine else []

/-- ASCII whitespace recognised by the trim model. -/
def isWS (c : Char) : Bool := c == (' ') || c == ('\t') || c == ('\n') || c == ('\r')

/-- Rust `str::trim` over the character list (ASCII whitespace; the manifest
and dialog strings handled by the launcher are ASCII). -/
def trimChars (l : List Char) : List Char :=
  ((l.dropWhile isWS).reverse.dropWhile isWS).reverse

/-- Rust `str::trim`. -/
def rustTrim (s : String) : String := ⟨trimChars s.data⟩

/-- Rust `str::starts_with`: the first list is a leading segment of the
second. -/
def listStarts : List Char → List Char → Bool
  | [], _ => true
  | _ :: _, [] => false
  | a :: as, b :: bs => a == b && listStarts as bs

/-- ASCII lower-casing of one character. -/
def charLower (c : Char) : Char :=
  if 65 ≤ c.toNat && c.toNat ≤ 90 then Char.ofNat (c.toNat + 32) else c

/-- ASCII lower-casing of a character list. -/
def lowerChars (l : List Char) : List Char := l.map charLower

/-- Split a character list at every newline. -/
def splitOnNl : List Char → List (List Char)
  | [] => [[]]
  | c :: t =>
    if c == ('\n') then [] :: splitOnNl t
    else
      match splitOnNl t with
      | h :: r => (c :: h) :: r
      | [] => [[c]]

/-- Drop one trailing carriage return (a `\r` that stood before the `\n`
the list was split at). -/
def stripCR (l : List Char) : List Char :=
  if l.getLast? = some ('\r') then l.dropLast else l

/-- Rust `str::lines`: split at `\n`, strip a `\r` left before each split
point, and drop the final empty segment produced by a trailing line
ending. -/
def rustLines (s : String) : List String :=
  let parts := splitOnNl s.data
  let body := (parts.dropLast.map stripCR).map (fun l => String.mk l)
  match parts.getLast? with
  | some [] => body
  | some last => body ++ [String.mk last]
  | none => body

/-- The protected-package test of source line 114:
`l.trim().starts_with("torch")` — case-sensitive. -/
def lineIsTorch (l : String) : Bool :=
  listStarts (String.data ("torch")) (trimChars l.data)

/-- The filtering step of source lines 113-115: keep every manifest line
whose trimmed text does not start with `torch`. -/
def filterTorchLines (content : String) : List String :=
  (rustLines content).filter (fun l => !(lineIsTorch l))

/-- Modelled from the spec: the protected-package test with the marker
matched case-insensitively at the start of the trimmed line, as the spec's
filtering sentence demands (the source has no case-insensitive match). -/
def lineIsTorchCI (l : String) : Bool :=
  listStarts (String.data ("torch")) (lowerChars (trimChars l.data))

/-- Modelled from the spec: filtering with the case-insensitive test. -/
def filterTorchLinesSpec (content : String) : List String :=
  (rustLines content).filter (fun l => !(lineIsTorchCI l))

/-- The filtered manifest content written to `requirements_install.txt`
(source line 116: filtered lines joined by `\n`). -/
def filteredManifest (content : String) : String :=
  String.intercalate ("\n") (filterTorchLines content)

/-- The python dependency probe script (source lines 72-78). -/
def checkScript : String :=
  "\nimport sys\ntry:\n    import fastapi, uvicorn, sqlalchemy, alembic, python_multipart, numpy\nexcept ImportError:\n    sys.exit(1)\n"

/-- The PowerShell consent-dialog script (source lines 89-93). -/
def psScript : String :=
  "\nAdd-Type -AssemblyName System.Windows.Forms\n$result = [System.Windows.Forms.MessageBox]::Show(\x27Voicebox requires Python dependencies (FastAPI, SQLAlchemy, etc.) that are missing in your global environment.\n\nDo you want to install them now using pip?\n(This will try to protect your existing PyTorch installation)\x27, \x27Missing Dependencies\x27, \x27YesNo\x27, \x27Question\x27)\nWrite-Output $result\n"

/-- The generated installer batch file (source lines 126-143). -/
def batContent (target : List String) : String :=
  "@echo off\r\ntitle Voicebox Dependency Installer\r\necho Installing missing Python dependencies...\r\necho Target: " ++
  pathStr target ++
  "\r\npip install -r \"" ++ pathStr target ++
  "\"\r\nif %errorlevel% neq 0 (\r\necho.\r\necho Installation FAILED. Please check the error messages above.\r\npause\r\nexit /b %errorlevel%\r\n)\r\necho.\r\necho Installation successful!\r\ntimeout /t 5\r\n"

/-- The executable path: `env::current_exe()` with the `"."` fallback of
source lines 25-28. -/
def exePathOf (env : Env) : List String := env.currentExe.getD [(".")]

/-- The executable's directory: `exe_path.parent().unwrap_or(Path::new("."))`
(source line 29). -/
def exeDirOf (env : Env) : List String :=
  (parentPath (exePathOf env)).getD [(".")]

/-- The four candidate backend directories, in the enumeration order of
source lines 36-41. -/
def possiblePaths (exeDir : List String) : List (List String) :=
  let up := (parentPath exeDir).getD exeDir
  [exeDir ++ [("resources"), ("backend")],
   exeDir ++ [("backend")],
   up ++ [("resources"), ("backend")],
   up ++ [("backend")]]

/-- The candidate list of this run. -/
def candidates (env : Env) : List (List String) := possiblePaths (exeDirOf env)

/-- The resolution loop of source lines 43-52: the first candidate that
exists, if any. -/
def resolvedBackend (env : Env) : Option (List String) :=
  (candidates env).find? env.pathExists

/-- The log messages of the resolution loop: one `Checked … (not found)`
per missed candidate, a final `Found backend at …` on the first hit. -/
def resolveLogs (ex : List String → Bool) : List (List String) → List String
  | [] => []
  | p :: rest =>
    if ex p then [("Launcher: Found backend at ") ++ pathStr p]
    else (("Launcher: Checked ") ++ pathStr p ++ (" (not found)")) :: resolveLogs ex rest

/-- Events of the resolution loop. -/
def resolveEvs (env : Env) : List Event :=
  logAll env (resolveLogs env.pathExists (candidates env))

/-- Events of the launcher prologue: the attempted deletion of the
previous log, then the first log line (source lines 21-22). -/
def startEvs (env : Env) : List Event :=
  Event.removeLogFile env.removeLogOk ::
    logEv env ("Launcher: Starting Voicebox Server wrapper...")

/-- Events of locating the executable (source lines 25-33). -/
def exeEvs (env : Env) : List Event :=
  (match env.currentExe with
   | some _ => []
   | none => logEv env ("Error getting exe path: os error")) ++
  logEv env ("Launcher: Executable at " ++ pathStr (exePathOf env)) ++
  logEv env ("Launcher: Executable Dir at " ++ pathStr (exeDirOf env))

/-- Whether the filtered-manifest file was produced: the read of
`requirements.txt` succeeded and the write of the filtered copy succeeded
(source lines 111-120). -/
def madeSafeOf (env : Env) : Bool := env.reqRead.isSome && env.writeSafeOk

/-- Events of the install orchestration, entered only after an affirmative
consent (source lines 104-161). -/
def installFlow (env : Env) (backendDir : List String) : List Event :=
  logEv env ("Launcher: Starting dependency installation...") ++
  (let reqPath := backendDir ++ [("requirements.txt")]
   if env.pathExists reqPath then
     let safePath := backendDir ++ [("requirements_install.txt")]
     let writeEvs : List Event :=
       match env.reqRead with
       | some content => [Event.writeFile safePath (filteredManifest content)]
       | none => []
     let installTarget := if madeSafeOf env then safePath else reqPath
     let batPath := backendDir ++ [("install_deps.bat")]
     writeEvs ++
     logEv env ("Launcher: Creating installation batch file...") ++
     [Event.writeFile batPath (batContent installTarget)] ++
     (if env.writeBatOk then
        logEv env ("Launcher: Running batch file...") ++
        [Event.spawnProc ("cmd") [("/C"), ("start"), ("/wait"), ("cmd"), ("/c"), pathStr batPath] none,
         Event.removeFile batPath]
      else logEv env ("Launcher: Failed to write batch file: os error")) ++
     (if madeSafeOf env then [Event.removeFile safePath] else [])
   else
     logEv env ("Launcher: Warning: requirements.txt not found."))

/-- Events after the consent dialog returned (source lines 98-169). -/
def dialogEvs (env : Env) (backendDir : List String) : List Event :=
  match env.dialogStdout with
  | none => logEv env ("Launcher: Failed to show dialog: os error")
  | some out =>
    logEv env ("Launcher: User response: " ++ rustTrim out) ++
    (if rustTrim out = ("Yes") then installFlow env backendDir
     else logEv env ("Launcher: User declined installation. Backend will likely fail."))

/-- Events of the dependency handling after the probe ran or failed to run
(source lines 84-175): `some true` = probe succeeded, `some false` = probe
ran and exited non-zero (missing dependencies, consent dialog shown),
`none` = the probe process could not be started. -/
def depEvs (env : Env) (backendDir : List String) : List Event :=
  match env.probe with
  | some true => logEv env ("Launcher: Dependencies look OK.")
  | some false =>
    logEv env ("Launcher: Missing dependencies. Prompting user...") ++
    Event.spawnProc ("powershell") [("-NoProfile"), ("-Command"), psScript] none ::
    dialogEvs env backendDir
  | none => logEv env ("Launcher: Failed to run python check script. Is python installed?")

/-- Events of the probe launch (source lines 70-82). -/
def probeEvs (env : Env) : List Event :=
  logEv env ("Launcher: Performing pre-flight dependency check...") ++
  [Event.spawnProc ("python") [("-c"), checkScript] none]

/-- The arguments the child is invoked with: the fixed module invocation
followed by the launcher's own arguments after its program name (source
lines 66 and 181-183). -/
def childArgs (env : Env) : List String :=
  [("-m"), ("backend.main")] ++ env.argv.drop 1

/-- The log line announcing the child launch (source line 178). -/
def launchLogMsg (env : Env) : String :=
  "Launcher: Running \x27python -m backend.main\x27 with args: " ++
  String.intercalate (", ") (env.argv.drop 1)

/-- Events of one child output stream relay thread (source lines 195-215):
each line is appended to the log and echoed to the launcher's matching
stream. -/
def relayEvs (env : Env) (tag : String) (mk : String → Event) : List String → List Event
  | [] => []
  | l :: t => logEv env (tag ++ l) ++ (mk l :: relayEvs env tag mk t)

/-- Events of the monitoring phase after a successful spawn: the spawned
log line and both relay threads.  The two threads run concurrently; their
events are listed stdout-stream first, which fixes one admissible
interleaving (no claim depends on the inter-stream order). -/
def monEvs (env : Env) : List Event :=
  logEv env ("Launcher: Python process spawned. Monitoring output...") ++
  relayEvs env ("STDOUT: ") Event.echoOut env.childOut ++
  relayEvs env ("STDERR: ") Event.echoErr env.childErr

/-- Rust `Debug` rendering of `status.code()` (source line 218). -/
def optCodeStr : Option Int → String
  | some c => "Some(" ++ toString c ++ ")"
  | none => "None"

/-- Events common to every branch that reaches the launch attempt: prologue,
resolution, working-directory log, probe, dependency handling, launch log
and the child spawn attempt (with the resolved parent directory as cwd). -/
def preEvents (env : Env) (backendDir rootDir : List String) : List Event :=
  startEvs env ++ exeEvs env ++ resolveEvs env ++
  logEv env ("Launcher: Setting CWD to " ++ pathStr rootDir) ++
  probeEvs env ++ depEvs env backendDir ++
  logEv env (launchLogMsg env) ++
  [Event.spawnProc ("python") (childArgs env) (some rootDir)]

/-- Replay of `main` over an environment.  The second match models the
`backend_dir.parent().unwrap()` of source line 63 (an abort if the resolved
path had no parent); the final branches model spawn failure (exit 1), a
failed `child.wait()` (abort via `.expect`, source line 217) and normal
exit-code propagation `status.code().unwrap_or(1)` (source line 219). -/
def run (env : Env) : RunResult :=
  match resolvedBackend env with
  | none =>
    ⟨startEvs env ++ exeEvs env ++ resolveEvs env ++
      logEv env ("Error: \x27backend\x27 directory not found in any expected location."),
     Outcome.exit 1⟩
  | some backendDir =>
    match parentPath backendDir with
    | none =>
      ⟨startEvs env ++ exeEvs env ++ resolveEvs env,
       Outcome.aborted ("called Option::unwrap on a None value")⟩
    | some rootDir =>
      if env.spawnOk then
        match env.waitResult with
        | none =>
          ⟨preEvents env backendDir rootDir ++ monEvs env,
           Outcome.aborted ("Failed to wait on child process")⟩
        | some code =>
          ⟨preEvents env backendDir rootDir ++ monEvs env ++
            logEv env ("Launcher: Process exited with code " ++ optCodeStr code),
           Outcome.exit (code.getD 1)⟩
      else
        ⟨preEvents env backendDir rootDir ++
          logEv env ("Launcher: Failed to spawn python process: os error") ++
          logEv env ("Make sure \x27python\x27 is in your system PATH."),
         Outcome.exit 1⟩

/-- Extract a process-spawn attempt from an event. -/
def spawnMap : Event → Option (String × List String)
  | Event.spawnProc p a _ => some (p, a)
  | _ => none

/-- Extract a file-write attempt from an event. -/
def writeMap : Event → Option (List String × String)
  | Event.writeFile p c => some (p, c)
  | _ => none

/-- Extract a file-removal attempt from an event (the log-file reset is a
separate event kind and deliberately not included). -/
def removeMap : Event → Option (List String)
  | Event.removeFile p => some p
  | _ => none

/-- The process-spawn attempts of a trace, in order. -/
def spawnsOf (evs : List Event) : List (String × List String) :=
  evs.filterMap spawnMap

/-- The file-write attempts of a trace, in order. -/
def writesOf (evs : List Event) : List (List String × String) :=
  evs.filterMap writeMap

/-- The file-removal attempts of a trace, in order. -/
def removesOf (evs : List Event) : List (List String) :=
  evs.filterMap removeMap

@[simp] theorem spawnsOf_nil : spawnsOf [] = [] := rfl

@[simp] theorem spawnsOf_append (a b : List Event) :
    spawnsOf (a ++ b) = spawnsOf a ++ spawnsOf b := List.filterMap_append a b spawnMap

@[simp] theorem spawnsOf_removeLog (b : Bool) (t : List Event) :
    spawnsOf (Event.removeLogFile b :: t) = spawnsOf t := rfl

@[simp] theorem spawnsOf_logLine (s : String) (t : List Event) :
    spawnsOf (Event.logLine s :: t) = spawnsOf t := rfl

@[simp] theorem spawnsOf_spawn (p : String) (a : List String) (c : Option (List String))
    (t : List Event) : spawnsOf (Event.spawnProc p a c :: t) = (p, a) :: spawnsOf t := rfl

@[simp] theorem spawnsOf_write (p : List String) (s : String) (t : List Event) :
    spawnsOf (Event.writeFile p s :: t) = spawnsOf t := rfl

@[simp] theorem spawnsOf_removeFile (p : List String) (t : List Event) :
    spawnsOf (Event.removeFile p :: t) = spawnsOf t := rfl

@[simp] theorem spawnsOf_echoOut (s : String) (t : List Event) :
    spawnsOf (Event.echoOut s :: t) = spawnsOf t := rfl

@[simp] theorem spawnsOf_echoErr (s : String) (t : List Event) :
    spawnsOf (Event.echoErr s :: t) = spawnsOf t := rfl

@[simp] theorem spawnsOf_logEv (env : Env) (s : String) : spawnsOf (logEv env s) = [] := by
  unfold logEv; split <;> rfl

@[simp] theorem spawnsOf_mapLog (ms : List String) :
    spawnsOf (ms.map Event.logLine) = [] := by
  induction ms with
  | nil => rfl
  | cons h t ih => simpa using ih

@[simp] theorem spawnsOf_logAll (env : Env) (ms : List String) :
    spawnsOf (logAll env ms) = [] := by
  unfold logAll; split
  · exact spawnsOf_mapLog ms
  · rfl

@[simp] theorem writesOf_nil : writesOf [] = [] := rfl

@[simp] theorem writesOf_append (a b : List Event) :
    writesOf (a ++ b) = writesOf a ++ writesOf b := List.filterMap_append a b writeMap

@[simp] theorem writesOf_removeLog (b : Bool) (t : List Event) :
    writesOf (Event.removeLogFile b :: t) = writesOf t := rfl

@[simp] theorem writesOf_logLine (s : String) (t : List Event) :
    writesOf (Event.logLine s :: t) = writesOf t := rfl

@[simp] theorem writesOf_spawn (p : String) (a : List String) (c : Option (List String))
    (t : List Event) : writesOf (Event.spawnProc p a c :: t) = writesOf t := rfl

@[simp] theorem writesOf_write (p : List String) (s : String) (t : List Event) :
    writesOf (Event.writeFile p s :: t) = (p, s) :: writesOf t := rfl

@[simp] theorem writesOf_removeFile (p : List String) (t : List Event) :
    writesOf (Event.removeFile p :: t) = writesOf t := rfl

@[simp] theorem writesOf_echoOut (s : String) (t : List Event) :
    writesOf (Event.echoOut s :: t) = writesOf t := rfl

@[simp] theorem writesOf_echoErr (s : String) (t : List Event) :
    writesOf (Event.echoErr s :: t) = writesOf t := rfl

@[simp] theorem writesOf_logEv (env : Env) (s : String) : writesOf (logEv env s) = [] := by
  unfold logEv; split <;> rfl

@[simp] theorem writesOf_mapLog (ms : List String) :
    writesOf (ms.map Event.logLine) = [] := by
  induction ms with
  | nil => rfl
  | cons h t ih => simpa using ih

@[simp] theorem writesOf_logAll (env : Env) (ms : List String) :
    writesOf (logAll env ms) = [] := by
  unfold logAll; split
  · exact writesOf_mapLog ms
  · rfl

@[simp] theorem removesOf_nil : removesOf [] = [] := rfl

@[simp] theorem removesOf_append (a b : List Event) :
    removesOf (a ++ b) = removesOf a ++ removesOf b := List.filterMap_append a b removeMap

@[simp] theorem removesOf_removeLog (b : Bool) (t : List Event) :
    removesOf (Event.removeLogFile b :: t) = removesOf t := rfl

@[simp] theorem removesOf_logLine (s : String) (t : List Event) :
    removesOf (Event.logLine s :: t) = removesOf t := rfl

@[simp] theorem removesOf_spawn (p : String) (a : List String) (c : Option (List String))
    (t : List Event) : removesOf (Event.spawnProc p a c :: t) = removesOf t := rfl

@[simp] theorem removesOf_write (p : List String) (s : String) (t : List Event) :
    removesOf (Event.writeFile p s :: t) = removesOf t := rfl

@[simp] theorem removesOf_removeFile (p : List String) (t : List Event) :
    removesOf (Event.removeFile p :: t) = p :: removesOf t := rfl

@[simp] theorem removesOf_echoOut (s : String) (t : List Event) :
    removesOf (Event.echoOut s :: t) = removesOf t := rfl

@[simp] theorem removesOf_echoErr (s : String) (t : List Event) :
    removesOf (Event.echoErr s :: t) = removesOf t := rfl

@[simp] theorem removesOf_logEv (env : Env) (s : String) : removesOf (logEv env s) = [] := by
  unfold logEv; split <;> rfl

@[simp] theorem removesOf_mapLog (ms : List String) :
    removesOf (ms.map Event.logLine) = [] := by
  induction ms with
  | nil => rfl
  | cons h t ih => simpa using ih

@[simp] theorem removesOf_logAll (env : Env) (ms : List String) :
    removesOf (logAll env ms) = [] := by
  unfold logAll; split
  · exact removesOf_mapLog ms
  · rfl

@[simp] theorem spawnsOf_relayOut (env : Env) (tag : String) (lines : List String) :
    spawnsOf (relayEvs env tag Event.echoOut lines) = [] := by
  induction lines with
  | nil => rfl
  | cons l t ih => simp [relayEvs, ih]

@[simp] theorem spawnsOf_relayErr (env : Env) (tag : String) (lines : List String) :
    spawnsOf (relayEvs env tag Event.echoErr lines) = [] := by
  induction lines with
  | nil => rfl
  | cons l t ih => simp [relayEvs, ih]

@[simp] theorem writesOf_relayOut (env : Env) (tag : String) (lines : List String) :
    writesOf (relayEvs env tag Event.echoOut lines) = [] := by
  induction lines with
  | nil => rfl
  | cons l t ih => simp [relayEvs, ih]

@[simp] theorem writesOf_relayErr (env : Env) (tag : String) (lines : List String) :
    writesOf (relayEvs env tag Event.echoErr lines) = [] := by
  induction lines with
  | nil => rfl
  | cons l t ih => simp [relayEvs, ih]

@[simp] theorem removesOf_relayOut (env : Env) (tag : String) (lines : List String) :
    removesOf (relayEvs env tag Event.echoOut lines) = [] := by
  induction lines with
  | nil => rfl
  | cons l t ih => simp [relayEvs, ih]

@[simp] theorem removesOf_relayErr (env : Env) (tag : String) (lines : List String) :
    removesOf (relayEvs env tag Event.echoErr lines) = [] := by
  induction lines with
  | nil => rfl
  | cons l t ih => simp [relayEvs, ih]

@[simp] theorem spawnsOf_monEvs (env : Env) : spawnsOf (monEvs env) = [] := by
  simp [monEvs]

@[simp] theorem writesOf_monEvs (env : Env) : writesOf (monEvs env) = [] := by
  simp [monEvs]

@[simp] theorem removesOf_monEvs (env : Env) : removesOf (monEvs env) = [] := by
  simp [monEvs]

/-- Closed form of the spawn attempts made by the install orchestration:
the visible installer terminal is started iff `requirements.txt` exists and
the batch file could be written. -/
def installSpawns (env : Env) (bd : List String) : List (String × List String) :=
  if env.pathExists (bd ++ [("requirements.txt")]) then
    if env.writeBatOk then
      [(("cmd"), [("/C"), ("start"), ("/wait"), ("cmd"), ("/c"),
        pathStr (bd ++ [("install_deps.bat")])])]
    else []
  else []

/-- Closed form of the spawn attempts after the consent dialog. -/
def dialogSpawns (env : Env) (bd : List String) : List (String × List String) :=
  match env.dialogStdout with
  | some out => if rustTrim out = ("Yes") then installSpawns env bd else []
  | none => []

/-- Closed form of the spawn attempts of the dependency-handling phase. -/
def depSpawns (env : Env) (bd : List String) : List (String × List String) :=
  match env.probe with
  | some false =>
    (("powershell"), [("-NoProfile"), ("-Command"), psScript]) :: dialogSpawns env bd
  | _ => []

/-- Closed form of every spawn attempt of a run: nothing when resolution
fails; otherwise the probe, the dependency-handling spawns, and always the
final child launch attempt. -/
def spawnSummary (env : Env) : List (String × List String) :=
  match resolvedBackend env with
  | none => []
  | some bd =>
    (("python"), [("-c"), checkScript]) ::
    (depSpawns env bd ++ [(("python"), childArgs env)])

/-- Closed form of the file-write attempts of the install orchestration. -/
def installWrites (env : Env) (bd : List String) : List (List String × String) :=
  if env.pathExists (bd ++ [("requirements.txt")]) then
    (match env.reqRead with
     | some content =>
       [(bd ++ [("requirements_install.txt")], filteredManifest content)]
     | none => []) ++
    [(bd ++ [("install_deps.bat")],
      batContent (if madeSafeOf env then bd ++ [("requirements_install.txt")]
                  else bd ++ [("requirements.txt")]))]
  else []

/-- Closed form of the file-write attempts after the consent dialog. -/
def dialogWrites (env : Env) (bd : List String) : List (List String × String) :=
  match env.dialogStdout with
  | some out => if rustTrim out = ("Yes") then installWrites env bd else []
  | none => []

/-- Closed form of the file-write attempts of the dependency phase. -/
def depWrites (env : Env) (bd : List String) : List (List String × String) :=
  match env.probe with
  | some false => dialogWrites env bd
  | _ => []

/-- Closed form of every file-write attempt of a run. -/
def writeSummary (env : Env) : List (List String × String) :=
  match resolvedBackend env with
  | none => []
  | some bd => depWrites env bd

/-- Closed form of the file removals of the install orchestration
(best-effort cleanup of the batch file and the filtered manifest). -/
def installRemoves (env : Env) (bd : List String) : List (List String) :=
  if env.pathExists (bd ++ [("requirements.txt")]) then
    (if env.writeBatOk then [bd ++ [("install_deps.bat")]] else []) ++
    (if madeSafeOf env then [bd ++ [("requirements_install.txt")]] else [])
  else []

/-- Closed form of the file removals after the consent dialog. -/
def dialogRemoves (env : Env) (bd : List String) : List (List String) :=
  match env.dialogStdout with
  | some out => if rustTrim out = ("Yes") then installRemoves env bd else []
  | none => []

/-- Closed form of the file removals of the dependency phase. -/
def depRemoves (env : Env) (bd : List String) : List (List String) :=
  match env.probe with
  | some false => dialogRemoves env bd
  | _ => []

/-- Closed form of every file removal of a run (the log reset aside). -/
def removeSummary (env : Env) : List (List String) :=
  match resolvedBackend env with
  | none => []
  | some bd => depRemoves env bd

/-- Closed form of the launcher's final outcome. -/
def runOutcome (env : Env) : Outcome :=
  match resolvedBackend env with
  | none => Outcome.exit 1
  | some bd =>
    match parentPath bd with
    | none => Outcome.aborted ("called Option::unwrap on a None value")
    | some _ =>
      if env.spawnOk then
        match env.waitResult with
        | none => Outcome.aborted ("Failed to wait on child process")
        | some code => Outcome.exit (code.getD 1)
      else Outcome.exit 1

theorem spawnsOf_installFlow (env : Env) (bd : List String) :
    spawnsOf (installFlow env bd) = installSpawns env bd := by
  unfold installFlow installSpawns
  cases hreq : env.pathExists (bd ++ [("requirements.txt")]) <;>
    cases hr : env.reqRead <;> cases hb : env.writeBatOk <;>
    cases hm : madeSafeOf env <;> simp [hreq, hr, hb, hm]

theorem spawnsOf_dialogEvs (env : Env) (bd : List String) :
    spawnsOf (dialogEvs env bd) = dialogSpawns env bd := by
  unfold dialogEvs dialogSpawns
  cases hd : env.dialogStdout with
  | none => simp
  | some out =>
    by_cases hy : rustTrim out = ("Yes") <;> simp [hy, spawnsOf_installFlow]

theorem spawnsOf_depEvs (env : Env) (bd : List String) :
    spawnsOf (depEvs env bd) = depSpawns env bd := by
  unfold depEvs depSpawns
  cases hp : env.probe with
  | none => simp
  | some b => cases b <;> simp [spawnsOf_dialogEvs]

theorem spawnsOf_preEvents (env : Env) (bd rd : List String) :
    spawnsOf (preEvents env bd rd) =
      (("python"), [("-c"), checkScript]) ::
      (depSpawns env bd ++ [(("python"), childArgs env)]) := by
  unfold preEvents startEvs exeEvs resolveEvs probeEvs
  cases hc : env.currentExe <;> simp [spawnsOf_depEvs]

theorem writesOf_installFlow (env : Env) (bd : List String) :
    writesOf (installFlow env bd) = installWrites env bd := by
  unfold installFlow installWrites
  cases hreq : env.pathExists (bd ++ [("requirements.txt")]) <;>
    cases hr : env.reqRead <;> cases hb : env.writeBatOk <;>
    cases hm : madeSafeOf env <;> simp [hreq, hr, hb, hm]

theorem writesOf_dialogEvs (env : Env) (bd : List String) :
    writesOf (dialogEvs env bd) = dialogWrites env bd := by
  unfold dialogEvs dialogWrites
  cases hd : env.dialogStdout with
  | none => simp
  | some out =>
    by_cases hy : rustTrim out = ("Yes") <;> simp [hy, writesOf_installFlow]

theorem writesOf_depEvs (env : Env) (bd : List String) :
    writesOf (depEvs env bd) = depWrites env bd := by
  unfold depEvs depWrites
  cases hp : env.probe with
  | none => simp
  | some b => cases b <;> simp [writesOf_dialogEvs]

theorem writesOf_preEvents (env : Env) (bd rd : List String) :
    writesOf (preEvents env bd rd) = depWrites env bd := by
  unfold preEvents startEvs exeEvs resolveEvs probeEvs
  cases hc : env.currentExe <;> simp [writesOf_depEvs]

theorem removesOf_installFlow (env : Env) (bd : List String) :
    removesOf (installFlow env bd) = installRemoves env bd := by
  unfold installFlow installRemoves
  cases hreq : env.pathExists (bd ++ [("requirements.txt")]) <;>
    cases hr : env.reqRead <;> cases hb : env.writeBatOk <;>
    cases hm : madeSafeOf env <;> simp [hreq, hr, hb, hm]

theorem removesOf_dialogEvs (env : Env) (bd : List String) :
    removesOf (dialogEvs env bd) = dialogRemoves env bd := by
  unfold dialogEvs dialogRemoves
  cases hd : env.dialogStdout with
  | none => simp
  | some out =>
    by_cases hy : rustTrim out = ("Yes") <;> simp [hy, removesOf_installFlow]

theorem removesOf_depEvs (env : Env) (bd : List String) :
    removesOf (depEvs env bd) = depRemoves env bd := by
  unfold depEvs depRemoves
  cases hp : env.probe with
  | none => simp
  | some b => cases b <;> simp [removesOf_dialogEvs]

theorem removesOf_preEvents (env : Env) (bd rd : List String) :
    removesOf (preEvents env bd rd) = depRemoves env bd := by
  unfold preEvents startEvs exeEvs resolveEvs probeEvs
  cases hc : env.currentExe <;> simp [removesOf_depEvs]

theorem parentPath_cons (a : String) (t : List String) :
    parentPath (a :: t) = some ((a :: t).dropLast) := rfl

theorem resolvedBackend_ne_nil (env : Env) (bd : List String)
    (h : resolvedBackend env = some bd) : bd ≠ [] := by
  have hm : bd ∈ candidates env := List.mem_of_find?_eq_some h
  simp only [candidates, possiblePaths, List.mem_cons, List.not_mem_nil, or_false] at hm
  rcases hm with h1 | h2 | h3 | h4 <;> subst_vars <;> simp

theorem parentPath_of_ne_nil (ps : List String) (h : ps ≠ []) :
    parentPath ps = some ps.dropLast := by
  cases ps with
  | nil => exact absurd rfl h
  | cons a t => rfl

theorem resolvedBackend_parent (env : Env) (bd : List String)
    (h : resolvedBackend env = some bd) : parentPath bd = some bd.dropLast :=
  parentPath_of_ne_nil bd (resolvedBackend_ne_nil env bd h)

theorem spawnsOf_run (env : Env) : spawnsOf (run env).events = spawnSummary env := by
  unfold run spawnSummary
  cases hr : resolvedBackend env with
  | none => simp [startEvs, exeEvs, resolveEvs]; cases hc : env.currentExe <;> simp
  | some bd =>
    have hp := resolvedBackend_parent env bd hr
    cases hs : env.spawnOk <;> [skip; cases hw : env.waitResult] <;>
      simp [hp, hs, spawnsOf_preEvents]

theorem writesOf_run (env : Env) : writesOf (run env).events = writeSummary env := by
  unfold run writeSummary
  cases hr : resolvedBackend env with
  | none => simp [startEvs, exeEvs, resolveEvs]; cases hc : env.currentExe <;> simp
  | some bd =>
    have hp := resolvedBackend_parent env bd hr
    cases hs : env.spawnOk <;> [skip; cases hw : env.waitResult] <;>
      simp [hp, hs, writesOf_preEvents]

theorem removesOf_run (env : Env) : removesOf (run env).events = removeSummary env := by
  unfold run removeSummary
  cases hr : resolvedBackend env with
  | none => simp [startEvs, exeEvs, resolveEvs]; cases hc : env.currentExe <;> simp
  | some bd =>
    have hp := resolvedBackend_parent env bd hr
    cases hs : env.spawnOk <;> [skip; cases hw : env.waitResult] <;>
      simp [hp, hs, removesOf_preEvents]

theorem run_outcome (env : Env) : (run env).outcome = runOutcome env := by
  unfold run runOutcome
  cases hr : resolvedBackend env with
  | none => rfl
  | some bd =>
    cases hp : parentPath bd with
    | none => simp [hp]
    | some rd =>
      cases hs : env.spawnOk <;> [skip; cases hw : env.waitResult] <;> simp [hp, hs]

/-- Whether an event leaves the log file's content untouched: every event
except the initial log-file deletion does. -/
def logUntouched : Event → Bool
  | Event.removeLogFile _ => false
  | _ => true

@[simp] theorem logUntouched_logLine (s : String) : logUntouched (Event.logLine s) = true := rfl

@[simp] theorem logUntouched_spawn (p : String) (a : List String)
    (c : Option (List String)) : logUntouched (Event.spawnProc p a c) = true := rfl

@[simp] theorem logUntouched_write (p : List String) (s : String) :
    logUntouched (Event.writeFile p s) = true := rfl

@[simp] theorem logUntouched_removeFile (p : List String) :
    logUntouched (Event.removeFile p) = true := rfl

@[simp] theorem logUntouched_echoOut (s : String) : logUntouched (Event.echoOut s) = true := rfl

@[simp] theorem logUntouched_echoErr (s : String) : logUntouched (Event.echoErr s) = true := rfl

@[simp] theorem untouched_logEv (env : Env) (s : String) :
    (logEv env s).all logUntouched = true := by
  unfold logEv; split <;> rfl

@[simp] theorem untouched_mapLog (ms : List String) :
    (ms.map Event.logLine).all logUntouched = true := by
  induction ms with
  | nil => rfl
  | cons h t ih => simp [ih]

@[simp] theorem untouched_logAll (env : Env) (ms : List String) :
    (logAll env ms).all logUntouched = true := by
  unfold logAll; split
  · exact untouched_mapLog ms
  · rfl

@[simp] theorem untouched_relayOut (env : Env) (tag : String) (lines : List String) :
    (relayEvs env tag Event.echoOut lines).all logUntouched = true := by
  induction lines with
  | nil => rfl
  | cons l t ih => simp [relayEvs, ih]

@[simp] theorem untouched_relayErr (env : Env) (tag : String) (lines : List String) :
    (relayEvs env tag Event.echoErr lines).all logUntouched = true := by
  induction lines with
  | nil => rfl
  | cons l t ih => simp [relayEvs, ih]

@[simp] theorem untouched_monEvs (env : Env) : (monEvs env).all logUntouched = true := by
  simp [monEvs]

@[simp] theorem untouched_installFlow (env : Env) (bd : List String) :
    (installFlow env bd).all logUntouched = true := by
  unfold installFlow
  cases hreq : env.pathExists (bd ++ [("requirements.txt")]) <;>
    cases hr : env.reqRead <;> cases hb : env.writeBatOk <;>
    cases hm : madeSafeOf env <;> simp [hreq, hr, hb, hm]

@[simp] theorem untouched_dialogEvs (env : Env) (bd : List String) :
    (dialogEvs env bd).all logUntouched = true := by
  unfold dialogEvs
  cases hd : env.dialogStdout with
  | none => simp
  | some out => by_cases hy : rustTrim out = ("Yes") <;> simp [hy]

@[simp] theorem untouched_depEvs (env : Env) (bd : List String) :
    (depEvs env bd).all logUntouched = true := by
  unfold depEvs
  cases hp : env.probe with
  | none => simp
  | some b => cases b <;> simp

@[simp] theorem untouched_exeEvs (env : Env) : (exeEvs env).all logUntouched = true := by
  unfold exeEvs
  cases hc : env.currentExe <;> simp

@[simp] theorem untouched_resolveEvs (env : Env) :
    (resolveEvs env).all logUntouched = true := by
  unfold resolveEvs; simp

@[simp] theorem untouched_probeEvs (env : Env) :
    (probeEvs env).all logUntouched = true := by
  unfold probeEvs; simp

/-- The pre-launch tail of a resolved run's trace, without the leading
log-file deletion. -/
def preTail (env : Env) (bd rd : List String) : List Event :=
  logEv env ("Launcher: Starting Voicebox Server wrapper...") ++ exeEvs env ++
  resolveEvs env ++
  logEv env ("Launcher: Setting CWD to " ++ pathStr rd) ++
  probeEvs env ++ depEvs env bd ++
  logEv env (launchLogMsg env) ++
  [Event.spawnProc ("python") (childArgs env) (some rd)]

theorem untouched_preTail (env : Env) (bd rd : List String) :
    (preTail env bd rd).all logUntouched = true := by
  simp only [preTail, List.all_append, List.all_cons, List.all_nil, untouched_logEv,
    untouched_exeEvs, untouched_resolveEvs, untouched_probeEvs, untouched_depEvs,
    logUntouched_spawn, Bool.and_true, Bool.true_and, Bool.and_self]

theorem run_events_head (env : Env) :
    ∃ t, (run env).events = Event.removeLogFile env.removeLogOk :: t ∧
      t.all logUntouched = true := by
  unfold run
  cases hr : resolvedBackend env with
  | none =>
    refine ⟨logEv env ("Launcher: Starting Voicebox Server wrapper...") ++ exeEvs env ++
      resolveEvs env ++
      logEv env ("Error: \x27backend\x27 directory not found in any expected location."),
      ?_, ?_⟩
    · simp only [startEvs, List.cons_append, List.append_assoc]
    · simp only [List.all_append, List.all_cons, List.all_nil, untouched_logEv,
        untouched_exeEvs, untouched_resolveEvs, Bool.and_true, Bool.true_and,
        Bool.and_self]
  | some bd =>
    cases hp : parentPath bd with
    | none =>
      refine ⟨logEv env ("Launcher: Starting Voicebox Server wrapper...") ++ exeEvs env ++
        resolveEvs env, ?_, ?_⟩
      · simp only [hp, startEvs, List.cons_append, List.append_assoc]
      · simp only [List.all_append, List.all_cons, List.all_nil, untouched_logEv,
          untouched_exeEvs, untouched_resolveEvs, Bool.and_true, Bool.true_and,
          Bool.and_self]
    | some rd =>
      cases hs : env.spawnOk with
      | false =>
        refine ⟨preTail env bd rd ++
          logEv env ("Launcher: Failed to spawn python process: os error") ++
          logEv env ("Make sure \x27python\x27 is in your system PATH."), ?_, ?_⟩
        · simp only [hp, hs, Bool.false_eq_true, if_false, preEvents, startEvs, preTail,
            List.cons_append, List.append_assoc]
        · simp only [List.all_append, untouched_preTail, untouched_logEv,
            Bool.and_true, Bool.true_and, Bool.and_self]
      | true =>
        cases hw : env.waitResult with
        | none =>
          refine ⟨preTail env bd rd ++ monEvs env, ?_, ?_⟩
          · simp only [hp, hs, eq_self_iff_true, if_true, preEvents, startEvs, preTail,
              List.cons_append, List.append_assoc]
          · simp only [List.all_append, untouched_preTail, untouched_monEvs,
              Bool.and_true, Bool.true_and, Bool.and_self]
        | some code =>
          refine ⟨preTail env bd rd ++ monEvs env ++
            logEv env ("Launcher: Process exited with code " ++ optCodeStr code),
            ?_, ?_⟩
          · simp only [hp, hs, eq_self_iff_true, if_true, preEvents, startEvs, preTail,
              List.cons_append, List.append_assoc]
          · simp only [List.all_append, untouched_preTail, untouched_monEvs,
              untouched_logEv, Bool.and_true, Bool.true_and, Bool.and_self]

/-- The spec's tri-state probe result.  The source has no explicit enum;
this classification mirrors the branch structure of source lines 84-175:
`Ok(output)` with failing status = missing, `Ok` with success = ok,
`Err` (probe process could not be started) = indeterminate. -/
inductive ProbeResult where
  | ok : ProbeResult
  | missing : ProbeResult
  | indeterminate : ProbeResult
deriving DecidableEq

/-- Classify a probe outcome as the source's branches do. -/
def probeClass : Option Bool → ProbeResult
  | some true => ProbeResult.ok
  | some false => ProbeResult.missing
  | none => ProbeResult.indeterminate

/-- One event's effect on the log file's content (as a list of lines): a
log-file deletion that took effect empties it, a FAILED deletion (the
source discards `remove_file`'s `Result`) leaves the old content in place,
a successful append adds a line, every other event leaves it unchanged. -/
def applyEvent (acc : List String) : Event → List String
  | Event.removeLogFile true => []
  | Event.removeLogFile false => acc
  | Event.logLine s => acc ++ [s]
  | _ => acc

/-- The log file's content after replaying a trace on top of whatever
content previous runs left behind. -/
def logFileAfter (prev : List String) (evs : List Event) : List String :=
  evs.foldl applyEvent prev

/-- The same environment with the log sink's writability replaced. -/
def withLog (env : Env) (b : Bool) : Env := { env with logOk := b }

/-- `find?` returns the element at the first satisfying index. -/
theorem find?_first {α : Type} (p : α → Bool) (l : List α) :
    ∀ (i : Nat) (hi : i < l.length), p (l.get ⟨i, hi⟩) = true →
      (∀ j (hj : j < l.length), j < i → p (l.get ⟨j, hj⟩) = false) →
      l.find? p = some (l.get ⟨i, hi⟩) := by
  induction l with
  | nil => intro i hi _ _; exact absurd hi (by simp)
  | cons a t ih =>
    intro i hi hx hf
    cases i with
    | zero =>
      have hx0 : p a = true := hx
      rw [List.find?_cons_of_pos t hx0]
      rfl
    | succ i =>
      have ha : p a = false := hf 0 (by simp) (Nat.succ_pos i)
      rw [List.find?_cons_of_neg t (by simp [ha])]
      have hi2 : i < t.length := Nat.lt_of_succ_lt_succ hi
      have hx2 : p (t.get ⟨i, hi2⟩) = true := by simpa using hx
      have hf2 : ∀ j (hj : j < t.length), j < i → p (t.get ⟨j, hj⟩) = false := by
        intro j hj hji
        have := hf (j + 1) (by simpa using Nat.succ_lt_succ hj) (Nat.succ_lt_succ hji)
        simpa using this
      simpa using ih i hi2 hx2 hf2

/-- A representative environment: installed layout, first candidate
exists, dependencies present, child runs and exits 0. -/
def baseEnv : Env :=
  { currentExe := some [("C:"), ("Voicebox"), ("voicebox-server.exe")],
    pathExists := fun p => p == [("C:"), ("Voicebox"), ("resources"), ("backend")],
    argv := [("voicebox-server.exe")],
    probe := some true,
    dialogStdout := none,
    reqRead := none,
    writeSafeOk := true,
    writeBatOk := true,
    spawnOk := true,
    childOut := [],
    childErr := [],
    waitResult := some (some 0),
    logOk := true,
    removeLogOk := true }

/-- Claim C1: for every run in which the child process is spawned and
terminates with a retrievable exit code c among 0, 1, 2, 127, the launcher
process itself exits with status c; if the child terminates without a
retrievable code (killed by a signal), the launcher exits with status 1. -/
theorem exit_code_propagation (env : Env)
    (hb : (resolvedBackend env).isSome = true) (hs : env.spawnOk = true) :
    (∀ c : Int, c ∈ [(0 : Int), 1, 2, 127] → env.waitResult = some (some c) →
        (run env).outcome = Outcome.exit c) ∧
    (env.waitResult = some none → (run env).outcome = Outcome.exit 1) := by
  obtain ⟨bd, hbd⟩ := Option.isSome_iff_exists.mp hb
  have hp := resolvedBackend_parent env bd hbd
  constructor
  · intro c _ hw
    rw [run_outcome]; unfold runOutcome; simp [hbd, hp, hs, hw]
  · intro hw
    rw [run_outcome]; unfold runOutcome; simp [hbd, hp, hs, hw]

/-- Environment for the C1 witness: the child exits with code 2. -/
def envC1 : Env := { baseEnv with waitResult := some (some 2) }

/-- Witness for C1 at a run whose child exits with code 2. -/
theorem exit_code_propagation_witness : (run envC1).outcome = Outcome.exit 2 :=
  (exit_code_propagation envC1 (by decide) rfl).1 2 (by decide) rfl

/-- Claim C2: for every assignment of existence to the four fixed candidate
directories, path resolution returns the first candidate in enumeration
order that exists, and never a later one, even when multiple candidates
exist. -/
theorem resolver_first_existing (env : Env) (i : Nat)
    (hi : i < (candidates env).length)
    (hx : env.pathExists ((candidates env).get ⟨i, hi⟩) = true)
    (hf : ∀ j (hj : j < (candidates env).length), j < i →
      env.pathExists ((candidates env).get ⟨j, hj⟩) = false) :
    resolvedBackend env = some ((candidates env).get ⟨i, hi⟩) :=
  find?_first env.pathExists (candidates env) i hi hx hf

/-- Environment for the C2 witness: candidates 1 and 3 both exist (flat
layout beside the launcher, and one level up); resolution must pick
candidate 1 and never candidate 3. -/
def envC2 : Env :=
  { baseEnv with
    currentExe := some [("C:"), ("app"), ("voicebox-server.exe")],
    pathExists := fun p =>
      p == [("C:"), ("app"), ("backend")] || p == [("C:"), ("backend")] }

/-- Witness for C2: with two existing candidates the earlier one wins. -/
theorem resolver_first_existing_witness :
    resolvedBackend envC2 = some [("C:"), ("app"), ("backend")] := by
  have h := resolver_first_existing envC2 1 (by decide) (by decide) (by decide)
  exact h

/-- Claim C3: if none of the candidate backend directories exists, the
launcher exits with status 1 and spawns no subprocess at all — no
dependency probe, no consent dialog, no installer, no child launch — and
attempts no file write or removal after the resolution failure. -/
theorem resolution_failure_fatal_no_spawn (env : Env)
    (h : resolvedBackend env = none) :
    (run env).outcome = Outcome.exit 1 ∧
    spawnsOf (run env).events = [] ∧
    writesOf (run env).events = [] ∧
    removesOf (run env).events = [] := by
  refine ⟨?_, ?_, ?_, ?_⟩
  · rw [run_outcome]; unfold runOutcome; simp [h]
  · rw [spawnsOf_run]; unfold spawnSummary; simp [h]
  · rw [writesOf_run]; unfold writeSummary; simp [h]
  · rw [removesOf_run]; unfold removeSummary; simp [h]

/-- Environment for the C3 witness: no candidate directory exists. -/
def envC3 : Env := { baseEnv with pathExists := fun _ => false }

/-- Witness for C3 at a filesystem with no backend directory anywhere. -/
theorem resolution_failure_fatal_no_spawn_witness :
    (run envC3).outcome = Outcome.exit 1 ∧
    spawnsOf (run envC3).events = [] ∧
    writesOf (run envC3).events = [] ∧
    removesOf (run envC3).events = [] :=
  resolution_failure_fatal_no_spawn envC3 (by decide)

/-- Counterexample for claim C4: the claim says the filtering step removes
exactly the lines whose trimmed text starts with the protected marker
matched case-insensitively.  On the manifest with lines `torch==2.0`,
`fastapi`, `TORCH-vision`, the code's filter (source line 114, a
case-sensitive `starts_with`) retains `TORCH-vision`, while the claimed
case-insensitive filter would remove it: the two filters disagree at this
concrete input. -/
theorem torch_filter_case_counterexample :
    filterTorchLines ("torch==2.0\nfastapi\nTORCH-vision") =
      [("fastapi"), ("TORCH-vision")] ∧
    filterTorchLinesSpec ("torch==2.0\nfastapi\nTORCH-vision") = [("fastapi")] ∧
    filterTorchLines ("torch==2.0\nfastapi\nTORCH-vision") ≠
      filterTorchLinesSpec ("torch==2.0\nfastapi\nTORCH-vision") := by
  refine ⟨by decide, by decide, by decide⟩

/-- Claim C4 as amended: the filtering step removes exactly those lines
whose trimmed text starts with the protected-package marker matched
case-SENSITIVELY; for the manifest with lines `torch==2.0`, `fastapi`,
`TORCH-vision`, the filtered manifest excludes `torch==2.0` and retains
both `fastapi` and the mixed-case `TORCH-vision`. -/
theorem torch_filter_case_sensitive :
    (∀ content l, l ∈ filterTorchLines content ↔
      (l ∈ rustLines content ∧ lineIsTorch l = false)) ∧
    filterTorchLines ("torch==2.0\nfastapi\nTORCH-vision") =
      [("fastapi"), ("TORCH-vision")] := by
  constructor
  · intro content l
    simp [filterTorchLines, List.mem_filter]
  · decide

/-- Claim C5: for every consent-dialog outcome whose returned answer string
is not the literal affirmative `Yes`, no installation is attempted (no
installer terminal is started) and no manifest files are created or
deleted; the launcher proceeds directly to attempting the child launch. -/
theorem declined_consent_no_install (env : Env) (bd : List String) (s : String)
    (hb : resolvedBackend env = some bd) (hprobe : env.probe = some false)
    (hd : env.dialogStdout = some s) (hno : rustTrim s ≠ ("Yes")) :
    writesOf (run env).events = [] ∧
    removesOf (run env).events = [] ∧
    (∀ a, (("cmd"), a) ∉ spawnsOf (run env).events) ∧
    (("python"), childArgs env) ∈ spawnsOf (run env).events := by
  refine ⟨?_, ?_, ?_, ?_⟩
  · rw [writesOf_run]; unfold writeSummary depWrites dialogWrites
    simp [hb, hprobe, hd, hno]
  · rw [removesOf_run]; unfold removeSummary depRemoves dialogRemoves
    simp [hb, hprobe, hd, hno]
  · intro a hmem
    rw [spawnsOf_run] at hmem
    unfold spawnSummary depSpawns dialogSpawns at hmem
    simp [hb, hprobe, hd, hno] at hmem
  · rw [spawnsOf_run]; unfold spawnSummary depSpawns dialogSpawns
    simp [hb, hprobe, hd, hno]

/-- Environment for the C5 witness: dependencies missing, the dialog
answers `No`. -/
def envC5 : Env :=
  { baseEnv with probe := some false, dialogStdout := some ("No") }

/-- Witness for C5 at a run whose user declined the install. -/
theorem declined_consent_no_install_witness :
    writesOf (run envC5).events = [] ∧
    removesOf (run envC5).events = [] ∧
    (∀ a, (("cmd"), a) ∉ spawnsOf (run envC5).events) ∧
    (("python"), childArgs envC5) ∈ spawnsOf (run envC5).events :=
  declined_consent_no_install envC5
    [("C:"), ("Voicebox"), ("resources"), ("backend")] ("No")
    (by decide) rfl rfl (by decide)

/-- Claim C6: the dependency probe result is Missing iff the probe script
ran and exited non-zero, Indeterminate iff the probe process could not be
started, and OK otherwise; in all three cases the launcher still attempts
the child launch, and the install flow (the visible installer terminal) is
entered only in the Missing case. -/
theorem probe_classification_launch (env : Env)
    (hb : (resolvedBackend env).isSome = true) :
    (probeClass env.probe = ProbeResult.missing ↔ env.probe = some false) ∧
    (probeClass env.probe = ProbeResult.indeterminate ↔ env.probe = none) ∧
    (probeClass env.probe = ProbeResult.ok ↔ env.probe = some true) ∧
    (("python"), childArgs env) ∈ spawnsOf (run env).events ∧
    (∀ a, (("cmd"), a) ∈ spawnsOf (run env).events → env.probe = some false) := by
  obtain ⟨bd, hbd⟩ := Option.isSome_iff_exists.mp hb
  refine ⟨?_, ?_, ?_, ?_, ?_⟩
  · cases hp : env.probe with
    | none => simp [probeClass]
    | some b => cases b <;> simp [probeClass]
  · cases hp : env.probe with
    | none => simp [probeClass]
    | some b => cases b <;> simp [probeClass]
  · cases hp : env.probe with
    | none => simp [probeClass]
    | some b => cases b <;> simp [probeClass]
  · rw [spawnsOf_run]; unfold spawnSummary; simp [hbd]
  · intro a hmem
    rw [spawnsOf_run] at hmem
    unfold spawnSummary depSpawns at hmem
    cases hp : env.probe with
    | none => simp [hbd, hp] at hmem
    | some b =>
      cases b
      · rfl
      · simp [hbd, hp] at hmem

/-- Environment for the C6 witness: probe ran and succeeded. -/
def envC6 : Env := baseEnv

/-- Witness for C6: with a successful probe the child launch is still
attempted. -/
theorem probe_classification_launch_witness :
    (("python"), childArgs envC6) ∈ spawnsOf (run envC6).events :=
  (probe_classification_launch envC6 (by decide)).2.2.2.1

/-- Claim C7: for every list of launcher command-line arguments after the
program name, the child process is invoked with exactly those tokens,
unmodified and in the same order, appended after the fixed
module-invocation arguments `-m backend.main`. -/
theorem arg_passthrough_exact (env : Env) (bd : List String)
    (hb : resolvedBackend env = some bd) :
    (("python"), [("-m"), ("backend.main")] ++ env.argv.drop 1) ∈
      spawnsOf (run env).events := by
  rw [spawnsOf_run]; unfold spawnSummary
  simp [hb, childArgs]

/-- Environment for the C7 witness: the launcher is invoked with
`--port 8080 --flag`. -/
def envC7 : Env :=
  { baseEnv with
    argv := [("voicebox-server.exe"), ("--port"), ("8080"), ("--flag")] }

/-- Witness for C7: the three tokens arrive verbatim and in order after
`-m backend.main`. -/
theorem arg_passthrough_exact_witness :
    (("python"), [("-m"), ("backend.main"), ("--port"), ("8080"), ("--flag")]) ∈
      spawnsOf (run envC7).events :=
  arg_passthrough_exact envC7
    [("C:"), ("Voicebox"), ("resources"), ("backend")] (by decide)

/-- Over a trace that never deletes the log file, content already present
stays in front and the trace's appends land after it. -/
theorem logFileAfter_untouched : ∀ (evs : List Event), evs.all logUntouched = true →
    ∀ p q : List String, logFileAfter (p ++ q) evs = p ++ logFileAfter q evs := by
  intro evs
  induction evs with
  | nil => intro _ p q; rfl
  | cons e t ih =>
    intro h p q
    have he : logUntouched e = true ∧ t.all logUntouched = true := by simpa using h
    cases e with
    | removeLogFile b => exact absurd he.1 (by simp [logUntouched])
    | logLine s =>
      show logFileAfter ((p ++ q) ++ [s]) t = p ++ logFileAfter (q ++ [s]) t
      rw [List.append_assoc]
      exact ih he.2 p (q ++ [s])
    | spawnProc a b c => exact ih he.2 p q
    | writeFile a b => exact ih he.2 p q
    | removeFile a => exact ih he.2 p q
    | echoOut s => exact ih he.2 p q
    | echoErr s => exact ih he.2 p q

/-- Environment for the C8 counterexample: a normal run, except that the
initial `fs::remove_file` on the previous log fails (its `Result` is
discarded by source line 21). -/
def envC8 : Env := { baseEnv with removeLogOk := false }

/-- Counterexample for claim C8: the claim says the previous log content is
removed at the start of every invocation, so the final log content never
depends on earlier runs.  But source line 21 only ATTEMPTS the removal and
ignores its `Result`: at this concrete environment, where the removal
fails, a line left by a previous run persists and the final content
differs from that of the same run over an empty log. -/
theorem log_removal_failure_counterexample :
    logFileAfter [("stale line from a previous run")] (run envC8).events ≠
      logFileAfter [] (run envC8).events := by
  decide

/-- Claim C8 as amended: at the start of every launcher invocation the
removal of the previous log content is ATTEMPTED — its result discarded —
before any new log line is written (the attempted deletion is the first
event of every run); when the removal succeeds, the log file's content
after the run does not depend on content left by earlier runs; when it
fails, the earlier content persists and the run's lines are appended after
it. -/
theorem log_reset_attempted (prev : List String) (env : Env) :
    (run env).events.head? = some (Event.removeLogFile env.removeLogOk) ∧
    (env.removeLogOk = true →
      logFileAfter prev (run env).events = logFileAfter [] (run env).events) ∧
    (env.removeLogOk = false →
      logFileAfter prev (run env).events =
        prev ++ logFileAfter [] (run env).events) := by
  obtain ⟨t, ht, hall⟩ := run_events_head env
  rw [ht]
  refine ⟨rfl, ?_, ?_⟩
  · intro h
    rw [h]
    rfl
  · intro h
    rw [h]
    have hacc := logFileAfter_untouched t hall prev []
    rw [List.append_nil] at hacc
    exact hacc

/-- Witness for C8 at a run whose log removal succeeds: stale content from
an earlier run does not survive. -/
theorem log_reset_attempted_witness :
    logFileAfter [("stale line from a previous run")] (run baseEnv).events =
      logFileAfter [] (run baseEnv).events :=
  (log_reset_attempted [("stale line from a previous run")] baseEnv).2.1 rfl

/-- Environment for the C9 counterexample: everything succeeds up to the
child spawn, but `child.wait()` returns an error. -/
def envC9 : Env := { baseEnv with waitResult := none }

/-- Counterexample for claim C9: the claim says no fallible step ever
propagates as an uncaught panic, but `child.wait().expect(...)` (source
line 217) panics when waiting on the child fails: at this concrete
environment the launcher run ends in an abort, not in an explicit exit. -/
theorem wait_failure_abort_counterexample :
    (run envC9).outcome = Outcome.aborted ("Failed to wait on child process") := by
  decide

/-- Claim C9 as amended: every fallible step is handled or exits through
the explicit fatal paths, EXCEPT that the launcher aborts with an uncaught
panic exactly when the backend directory was resolved, the child spawn
succeeded, and waiting on the child then failed (the `.expect` on
`child.wait()`); in particular the `unwrap` on the resolved directory's
parent never aborts. -/
theorem abort_characterization (env : Env) :
    (∃ m, (run env).outcome = Outcome.aborted m) ↔
      ((resolvedBackend env).isSome = true ∧ env.spawnOk = true ∧
        env.waitResult = none) := by
  rw [run_outcome]; unfold runOutcome
  cases hr : resolvedBackend env with
  | none => simp [hr]
  | some bd =>
    have hp := resolvedBackend_parent env bd hr
    cases hs : env.spawnOk
    · simp [hr, hp, hs]
    · cases hw : env.waitResult
      · simp [hr, hp, hs, hw]
      · simp [hr, hp, hs, hw]

/-- Claim C10: failures of the log sink are silently discarded — for every
environment, the launcher makes the same control-flow decisions: its final
outcome, its spawn attempts, its file writes and its file removals are
identical whether or not the log sink is writable. -/
theorem log_sink_noninterference (env : Env) (b1 b2 : Bool) :
    (run (withLog env b1)).outcome = (run (withLog env b2)).outcome ∧
    spawnsOf (run (withLog env b1)).events = spawnsOf (run (withLog env b2)).events ∧
    writesOf (run (withLog env b1)).events = writesOf (run (withLog env b2)).events ∧
    removesOf (run (withLog env b1)).events = removesOf (run (withLog env b2)).events := by
  refine ⟨?_, ?_, ?_, ?_⟩
  · rw [run_outcome, run_outcome]; rfl
  · rw [spawnsOf_run, spawnsOf_run]; rfl
  · rw [writesOf_run, writesOf_run]; rfl
  · rw [removesOf_run, removesOf_run]; rfl
